import Mathlib

/-!
Shallow embedding of the interactive search session core of the atuin
shell-history browser (src/command/client/search/interactive/core.rs and
tui_shell.rs), together with theorems settling the frozen claims about it.

Machine integers: the Rust code works on `usize`. We embed `usize` values as
`Nat`, and model the panicking arithmetic (`a + b`, `a - b` in debug builds)
with explicit checked operations returning `Option Nat`; `saturating_add` /
`saturating_sub` are total. Fallible computation (a reachable panic such as
an out-of-bounds `swap_remove` or `len - 1` underflow) makes the embedded
step function return `none`.

Database calls performed by `refresh_query` are embedded as a pure oracle
(`Database`, a record of functions) plus a ghost trace field `queries` on the
state recording each issued call, which lets us state "at most one refresh
per batch" as a theorem about trace lengths.

Parts of the repository referenced but not present under src/ (the settings
enums' discriminants, the `ListState` selection holder from history_list.rs,
and the `Cursor` text editor from cursor.rs) are modelled from the spec; each
such definition carries a doc comment saying so.
-/

namespace Atuin

/-- Largest `usize` value on the 64-bit targets atuin builds for
(2 ^ 64 - 1, written as a literal so kernel reduction stays cheap). -/
def usizeMax : Nat := 18446744073709551615

/-- Rust `usize::saturating_add`: clamps at `usizeMax`. -/
def satAdd (a b : Nat) : Nat := min (a + b) usizeMax

/-- Rust `usize` addition in debug semantics: panics (here `none`) past
`usizeMax`. -/
def checkedAdd (a b : Nat) : Option Nat :=
  if a + b ≤ usizeMax then some (a + b) else none

/-- Rust `usize` subtraction in debug semantics: panics (here `none`) on
underflow. -/
def checkedSub (a b : Nat) : Option Nat :=
  if b ≤ a then some (a - b) else none

/-- Modelled from the spec: `FilterMode` (settings.rs is not under src/) is
the enum {Global, Host, Session, Directory}, cyclic, in this fixed order. -/
inductive FilterMode
  | Global
  | Host
  | Session
  | Directory
deriving DecidableEq

/-- Modelled from the spec: the `as usize` discriminant of `FilterMode`
follows the spec's fixed declaration order. -/
def FilterMode.toIdx : FilterMode → Nat
  | .Global => 0
  | .Host => 1
  | .Session => 2
  | .Directory => 3

/-- Modelled from the spec: the configured exit policy
`exit_mode ∈ {ReturnOriginal, ReturnQuery}` (settings.rs not under src/). -/
inductive ExitMode
  | ReturnOriginal
  | ReturnQuery
deriving DecidableEq

/-- Modelled from the spec: the configured search mode is consumed only as an
argument forwarded to the storage collaborator, so we keep it as an abstract
tag. -/
structure SearchMode where
  tag : Nat
deriving DecidableEq

/-- Modelled from the spec: the configured word-jump policy, consumed only by
the cursor collaborator's word operations. -/
inductive WordJumpMode
  | Emacs
  | Subword
deriving DecidableEq

/-- Version tag carried by the update notification (semver::Version in the
source); only stored and compared, so an abstract tag suffices. -/
structure Version where
  tag : String
deriving DecidableEq

/-- Query context handed to the storage collaborator (database::Context in
the source); consumed only as a forwarded argument. -/
structure Context where
  tag : Nat
deriving DecidableEq

/-- History record: the spec requires at least a display command string; only
`command` is read by the core. -/
structure History where
  command : String
deriving DecidableEq

/-- Modelled from the spec: the `ListState` selection holder from
history_list.rs (not under src/): a selected index plus the number of visible
entries used for page scrolling. -/
structure ListState where
  selected : Nat
  max_entries : Nat
deriving DecidableEq

/-- Modelled from the spec: `ListState::select` stores the new index. -/
def ListState.select (l : ListState) (i : Nat) : ListState :=
  { l with selected := i }

/-- Modelled from the spec: the `Cursor` text editor from cursor.rs (not
under src/) owns the query text and a position, kept within bounds. The
position counts chars. -/
structure Cursor where
  source : String
  index : Nat
deriving DecidableEq

/-- Current query text (`Cursor::as_str`). -/
def Cursor.as_str (c : Cursor) : String := c.source

/-- Consume the cursor, returning the owned query text
(`Cursor::into_inner`). -/
def Cursor.into_inner (c : Cursor) : String := c.source

/-- Modelled from the spec: move one char left, staying in bounds. -/
def Cursor.left (c : Cursor) : Cursor := { c with index := c.index - 1 }

/-- Modelled from the spec: move one char right, staying in bounds. -/
def Cursor.right (c : Cursor) : Cursor :=
  if c.index < c.source.length then { c with index := c.index + 1 } else c

/-- Modelled from the spec: move to the start of the buffer. -/
def Cursor.start (c : Cursor) : Cursor := { c with index := 0 }

/-- Modelled from the spec: move to the end of the buffer (`Cursor::end`;
renamed because `end` is reserved in Lean). -/
def Cursor.seekEnd (c : Cursor) : Cursor := { c with index := c.source.length }

/-- Modelled from the spec: insert a char at the position, advancing it. -/
def Cursor.insert (c : Cursor) (ch : Char) : Cursor :=
  { source := ⟨c.source.toList.take c.index ++ ch :: c.source.toList.drop c.index⟩,
    index := c.index + 1 }

/-- Modelled from the spec: delete the char before the position. -/
def Cursor.back (c : Cursor) : Cursor :=
  if c.index = 0 then c
  else
    { source := ⟨c.source.toList.take (c.index - 1) ++ c.source.toList.drop c.index⟩,
      index := c.index - 1 }

/-- Modelled from the spec: delete the char at the position. -/
def Cursor.remove (c : Cursor) : Cursor :=
  { c with
    source := ⟨c.source.toList.take c.index ++ c.source.toList.drop (c.index + 1)⟩ }

/-- Modelled from the spec: empty the buffer, cursor stays valid. -/
def Cursor.clear (_c : Cursor) : Cursor := { source := "", index := 0 }

/-- Modelled from the spec: delete everything before the position. -/
def Cursor.clear_from_start (c : Cursor) : Cursor :=
  { source := ⟨c.source.toList.drop c.index⟩, index := 0 }

/-- Modelled from the spec: delete everything from the position to the end. -/
def Cursor.clear_to_end (c : Cursor) : Cursor :=
  { c with source := ⟨c.source.toList.take c.index⟩ }

/-- Modelled from the spec: membership in the configured word-character
set. -/
def isWordChar (word_chars : String) (ch : Char) : Bool := word_chars.contains ch

/-- Modelled from the spec: chars jumped over by a leftward word move from
position `index`: separators first, then word chars. -/
def prevWordSpan (word_chars : String) (src : List Char) (index : Nat) : Nat :=
  let before := (src.take index).reverse
  let sep := (before.takeWhile fun ch => !(isWordChar word_chars ch)).length
  let word := ((before.drop sep).takeWhile (isWordChar word_chars)).length
  sep + word

/-- Modelled from the spec: chars jumped over by a rightward word move. -/
def nextWordSpan (word_chars : String) (src : List Char) (index : Nat) : Nat :=
  let after := src.drop index
  let sep := (after.takeWhile fun ch => !(isWordChar word_chars ch)).length
  let word := ((after.drop sep).takeWhile (isWordChar word_chars)).length
  sep + word

/-- Modelled from the spec: move left by one word. -/
def Cursor.prev_word (c : Cursor) (word_chars : String) (_jm : WordJumpMode) : Cursor :=
  { c with index := c.index - prevWordSpan word_chars c.source.toList c.index }

/-- Modelled from the spec: move right by one word. -/
def Cursor.next_word (c : Cursor) (word_chars : String) (_jm : WordJumpMode) : Cursor :=
  { c with index := c.index + nextWordSpan word_chars c.source.toList c.index }

/-- Modelled from the spec: delete the word before the position. -/
def Cursor.remove_prev_word (c : Cursor) (word_chars : String) (_jm : WordJumpMode) : Cursor :=
  let k := prevWordSpan word_chars c.source.toList c.index
  { source := ⟨c.source.toList.take (c.index - k) ++ c.source.toList.drop c.index⟩,
    index := c.index - k }

/-- Modelled from the spec: delete the word after the position. -/
def Cursor.remove_next_word (c : Cursor) (word_chars : String) (_jm : WordJumpMode) : Cursor :=
  let k := nextWordSpan word_chars c.source.toList c.index
  { c with
    source := ⟨c.source.toList.take c.index ++ c.source.toList.drop (c.index + k)⟩ }

/-- A database call issued by `refresh_query`, recorded on the ghost trace:
either `db.list(filter_mode, context, limit, reversed)` or
`db.search(search_mode, filter_mode, context, text, limit, before, after)`. -/
inductive DbQuery
  | list (fm : FilterMode) (ctx : Context) (limit : Option Nat) (reversed : Bool)
  | search (sm : SearchMode) (fm : FilterMode) (ctx : Context) (text : String)
      (limit : Option Nat) (before after : Option Nat)
deriving DecidableEq

/-- Pure oracle for the storage collaborator: `list` and `search` as
functions of exactly the arguments the source passes. -/
structure Database where
  listFn : FilterMode → Context → Option Nat → Bool → List History
  searchFn : SearchMode → FilterMode → Context → String → Option Nat →
      Option Nat → Option Nat → List History

/-- Configuration fields read by the embedded core (Settings in the
source; unrelated fields elided). -/
structure Settings where
  search_mode : SearchMode
  exit_mode : ExitMode
  scroll_context_lines : Nat
  word_chars : String
  word_jump_mode : WordJumpMode

/-- Session state (struct State in core.rs), plus the ghost `queries` trace
of database calls. -/
structure State where
  db : Database
  filter_mode : FilterMode
  results_state : ListState
  context : Context
  input : Cursor
  history : List History
  history_count : Int
  settings : Settings
  update_needed : Option Version
  queries : List DbQuery

/-- Direction of a selection move (enum Line in core.rs). -/
inductive Line
  | Up
  | Down
deriving DecidableEq

/-- Granularity of a selection move (enum For in core.rs). -/
inductive For
  | Page
  | SingleLine
deriving DecidableEq

/-- Direction of a cursor move or deletion (enum Towards in core.rs). -/
inductive Towards
  | Left
  | Right
deriving DecidableEq

/-- Granularity of a cursor move or deletion (enum To in core.rs). -/
inductive To
  | Word
  | Char
  | Edge
deriving DecidableEq

/-- Semantic events (enum Event in core.rs). `SelectN` carries a u32 in the
source; embedded as `Nat`. -/
inductive Event
  | Input (c : Char)
  | Selection (l : Line) (f : For)
  | Cursor (t : Towards) (g : To)
  | Delete (t : Towards) (g : To)
  | Clear
  | Exit
  | UpdateNeeded (v : Version)
  | Cancel
  | SelectN (n : Nat)
  | CycleFilterMode

/-- Outcome of handling one event: `Break result` terminates the session,
`Continue state` keeps it open (std::ops::ControlFlow in the source). -/
inductive ControlFlow (B C : Type)
  | Break (b : B)
  | Continue (c : C)

/-- Rust `Vec::swap_remove`: replace index `i` with the last element and pop;
`none` models the out-of-bounds panic. -/
def swapRemove {α : Type} (l : List α) (i : Nat) : Option (α × List α) :=
  if h : i < l.length then
    some (l.get ⟨i, h⟩,
      (l.set i (l.get ⟨l.length - 1, Nat.sub_lt (Nat.lt_of_le_of_lt (Nat.zero_le i) h) Nat.one_pos⟩)).dropLast)
  else none

/-- The FILTER_MODES cycle table from core.rs. -/
def cycleModes : List FilterMode :=
  [FilterMode.Global, FilterMode.Host, FilterMode.Session, FilterMode.Directory]

/-- One step of the filter-mode cycle, exactly as core.rs indexes
FILTER_MODES at `(i + 1) % 4`. -/
def nextFM (fm : FilterMode) : FilterMode :=
  cycleModes.getD ((fm.toIdx + 1) % cycleModes.length) FilterMode.Global

/-- State::refresh_query from core.rs: empty query lists up to 200 recent
records under the filter mode, otherwise free-text search with limit 200;
selection resets to 0. The issued call is appended to the ghost trace. -/
def State.refresh_query (s : State) : State :=
  let i := s.input.as_str
  if i = "" then
    { s with
      history := s.db.listFn s.filter_mode s.context (some 200) true,
      queries := s.queries ++ [DbQuery.list s.filter_mode s.context (some 200) true],
      results_state := s.results_state.select 0 }
  else
    { s with
      history := s.db.searchFn s.settings.search_mode s.filter_mode s.context i (some 200) none none,
      queries := s.queries ++
        [DbQuery.search s.settings.search_mode s.filter_mode s.context i (some 200) none none],
      results_state := s.results_state.select 0 }

/-- State::handle from core.rs, one event against the session; `none` models
a panic (underflowing `usize` subtraction, out-of-bounds `swap_remove`). -/
def State.handle (s : State) (event : Event) : Option (ControlFlow String State) :=
  let len := s.history.length
  match event with
  | .Selection .Up .SingleLine =>
    match checkedAdd s.results_state.selected 1, checkedSub len 1 with
    | some i, some m =>
      some (.Continue { s with results_state := s.results_state.select (min i m) })
    | _, _ => none
  | .Selection .Down .SingleLine =>
    match s.results_state.selected with
    | 0 => some (.Break "")
    | i + 1 => some (.Continue { s with results_state := s.results_state.select i })
  | .Selection .Down .Page =>
    match checkedSub s.results_state.max_entries s.settings.scroll_context_lines with
    | some scroll_len =>
      some (.Continue
        { s with results_state := s.results_state.select (s.results_state.selected - scroll_len) })
    | none => none
  | .Selection .Up .Page =>
    match checkedSub s.results_state.max_entries s.settings.scroll_context_lines with
    | some scroll_len =>
      match checkedAdd s.results_state.selected scroll_len, checkedSub len 1 with
      | some i, some m =>
        some (.Continue { s with results_state := s.results_state.select (min i m) })
      | _, _ => none
    | none => none
  | .Cursor .Left .Char => some (.Continue { s with input := s.input.left })
  | .Cursor .Right .Char => some (.Continue { s with input := s.input.right })
  | .Cursor .Left .Word =>
    some (.Continue
      { s with input := s.input.prev_word s.settings.word_chars s.settings.word_jump_mode })
  | .Cursor .Right .Word =>
    some (.Continue
      { s with input := s.input.next_word s.settings.word_chars s.settings.word_jump_mode })
  | .Cursor .Left .Edge => some (.Continue { s with input := s.input.start })
  | .Cursor .Right .Edge => some (.Continue { s with input := s.input.seekEnd })
  | .Input c => some (.Continue { s with input := s.input.insert c })
  | .Delete .Left .Word =>
    some (.Continue
      { s with input := s.input.remove_prev_word s.settings.word_chars s.settings.word_jump_mode })
  | .Delete .Left .Char => some (.Continue { s with input := s.input.back })
  | .Delete .Left .Edge => some (.Continue { s with input := s.input.clear_from_start })
  | .Delete .Right .Word =>
    some (.Continue
      { s with input := s.input.remove_next_word s.settings.word_chars s.settings.word_jump_mode })
  | .Delete .Right .Char => some (.Continue { s with input := s.input.remove })
  | .Delete .Right .Edge => some (.Continue { s with input := s.input.clear_to_end })
  | .Clear => some (.Continue { s with input := s.input.clear })
  | .Cancel => some (.Break "")
  | .Exit =>
    some (.Break (match s.settings.exit_mode with
      | .ReturnOriginal => ""
      | .ReturnQuery => s.input.into_inner))
  | .SelectN n =>
    let i := satAdd s.results_state.selected n
    if i < s.history.length then some (.Break s.input.into_inner)
    else
      match swapRemove s.history i with
      | some (h, _) => some (.Break h.command)
      | none => none
  | .UpdateNeeded v => some (.Continue { s with update_needed := some v })
  | .CycleFilterMode => some (.Continue { s with filter_mode := nextFM s.filter_mode })

/-- Crossterm mouse buttons (tui_shell.rs conversion input). -/
inductive MouseButton
  | Left
  | Right
  | Middle
deriving DecidableEq

/-- Crossterm mouse event kinds (tui_shell.rs conversion input). -/
inductive MouseEventKind
  | Down (b : MouseButton)
  | Up (b : MouseButton)
  | Drag (b : MouseButton)
  | Moved
  | ScrollDown
  | ScrollUp
deriving DecidableEq

/-- Crossterm mouse event: only the kind is inspected by the conversion. -/
structure MouseEvent where
  kind : MouseEventKind
  column : Nat
  row : Nat
deriving DecidableEq

/-- Crossterm key codes reaching the conversion in tui_shell.rs; the final
constructors are representatives of the codes its match leaves unmapped. -/
inductive KeyCode
  | Backspace
  | Enter
  | Left
  | Right
  | Up
  | Down
  | Home
  | End
  | PageUp
  | PageDown
  | Tab
  | BackTab
  | Delete
  | Insert
  | F (n : Nat)
  | Char (c : Char)
  | Null
  | Esc
  | CapsLock
deriving DecidableEq

/-- Key modifiers; the conversion reads only CONTROL and ALT. -/
structure KeyModifiers where
  shift : Bool
  control : Bool
  alt : Bool
deriving DecidableEq

/-- Crossterm key event as inspected by the conversion. -/
structure KeyEvent where
  code : KeyCode
  modifiers : KeyModifiers
deriving DecidableEq

/-- Raw crossterm terminal events dispatched by TryFrom in tui_shell.rs. -/
inductive TermEvent
  | FocusGained
  | FocusLost
  | Key (k : KeyEvent)
  | Mouse (m : MouseEvent)
  | Paste (s : String)
  | Resize (w h : Nat)
deriving DecidableEq

/-- TryFrom<MouseEvent> for core::Event in tui_shell.rs: scroll wheel moves
the list selection one line (the shell's ListDown/ListUp names denote the
core's Selection constructors); everything else is skipped (`none` embeds
Err(Skip)). -/
def Event.tryFromMouse (m : MouseEvent) : Option Event :=
  match m.kind with
  | .ScrollDown => some (.Selection .Down .SingleLine)
  | .ScrollUp => some (.Selection .Up .SingleLine)
  | _ => none

/-- TryFrom<KeyEvent> for core::Event in tui_shell.rs: the fixed key-chord
table. Rust guard fallthrough on `Char` patterns becomes the if-chain; the
shell's event names (CursorLeft, PrevWord, ListDown, ...) denote the core's
Cursor/Delete/Selection constructors. Unmapped codes are skipped. -/
def Event.tryFromKey (input : KeyEvent) : Option Event :=
  let ctrl := input.modifiers.control
  let alt := input.modifiers.alt
  match input.code with
  | .Esc => some .Exit
  | .Enter => some (.SelectN 0)
  | .Left => if ctrl then some (.Cursor .Left .Word) else some (.Cursor .Left .Char)
  | .Right => if ctrl then some (.Cursor .Right .Word) else some (.Cursor .Right .Char)
  | .Home => some (.Cursor .Left .Edge)
  | .End => some (.Cursor .Right .Edge)
  | .Backspace => if ctrl then some (.Delete .Left .Word) else some (.Delete .Left .Char)
  | .Delete => if ctrl then some (.Delete .Right .Word) else some (.Delete .Right .Char)
  | .Down => some (.Selection .Down .SingleLine)
  | .Up => some (.Selection .Up .SingleLine)
  | .PageDown => some (.Selection .Down .Page)
  | .PageUp => some (.Selection .Up .Page)
  | .Char c =>
    if ctrl && (c == 'c' || c == 'd' || c == 'g') then some .Cancel
    else if alt && decide ('1' ≤ c) && decide (c ≤ '9') then
      some (.SelectN (c.toNat - '0'.toNat))
    else if ctrl && c == 'h' then some (.Cursor .Left .Char)
    else if ctrl && c == 'l' then some (.Cursor .Right .Char)
    else if ctrl && c == 'a' then some (.Cursor .Left .Edge)
    else if ctrl && c == 'e' then some (.Cursor .Right .Edge)
    else if ctrl && c == 'w' then some (.Delete .Left .Word)
    else if ctrl && c == 'u' then some .Clear
    else if ctrl && c == 'r' then some .CycleFilterMode
    else if ctrl && (c == 'n' || c == 'j') then some (.Selection .Down .SingleLine)
    else if ctrl && (c == 'p' || c == 'k') then some (.Selection .Up .SingleLine)
    else some (.Input c)
  | _ => none

/-- TryFrom<Event> for core::Event in tui_shell.rs: keys and mouse delegate;
focus changes, paste and resize are skipped. -/
def Event.tryFromTerm : TermEvent → Option Event
  | .Key k => Event.tryFromKey k
  | .Mouse m => Event.tryFromMouse m
  | .FocusGained => none
  | .FocusLost => none
  | .Paste _ => none
  | .Resize _ _ => none

/-- Batch guard (struct Guard in core.rs): snapshots of the query text and
filter mode plus the owned session. -/
structure Guard where
  initial_input : String
  initial_filter_mode : FilterMode
  inner : State

/-- State::start_batch from core.rs. -/
def State.start_batch (s : State) : Guard :=
  { initial_input := s.input.as_str, initial_filter_mode := s.filter_mode, inner := s }

/-- Guard::handle from core.rs: forward to the session, re-wrapping on
Continue and propagating Break. -/
def Guard.handle (g : Guard) (event : Event) : Option (ControlFlow String Guard) :=
  match g.inner.handle event with
  | some (.Continue inner) => some (.Continue { g with inner := inner })
  | some (.Break r) => some (.Break r)
  | none => none

/-- Guard::finish from core.rs: refresh exactly when the live query text or
filter mode differs from the snapshot, and report whether a refresh ran. -/
def Guard.finish (g : Guard) : State × Bool :=
  let should_update :=
    decide (g.initial_input ≠ g.inner.input.as_str ∨ g.initial_filter_mode ≠ g.inner.filter_mode)
  if should_update then (g.inner.refresh_query, should_update) else (g.inner, should_update)

/-! Shared helper lemmas and sample values used by claim witnesses. -/

/-- State.handle never talks to the database: any Continue outcome carries an
unchanged ghost query trace. -/
theorem State.handle_queries {s : State} {e : Event} {s' : State}
    (h : s.handle e = some (.Continue s')) : s'.queries = s.queries := by
  cases e with
  | Input c =>
    simp only [State.handle, Option.some.injEq, ControlFlow.Continue.injEq] at h
    subst h; rfl
  | Selection l f =>
    cases l <;> cases f <;> simp only [State.handle] at h <;>
      (repeat' split at h) <;>
      first
        | (cases h; rfl)
        | simp_all
  | Cursor t g =>
    cases t <;> cases g <;>
      simp only [State.handle, Option.some.injEq, ControlFlow.Continue.injEq] at h <;>
      subst h <;> rfl
  | Delete t g =>
    cases t <;> cases g <;>
      simp only [State.handle, Option.some.injEq, ControlFlow.Continue.injEq] at h <;>
      subst h <;> rfl
  | Clear =>
    simp only [State.handle, Option.some.injEq, ControlFlow.Continue.injEq] at h
    subst h; rfl
  | Exit => simp only [State.handle] at h; simp at h
  | UpdateNeeded v =>
    simp only [State.handle, Option.some.injEq, ControlFlow.Continue.injEq] at h
    subst h; rfl
  | Cancel => simp only [State.handle] at h; simp at h
  | SelectN n =>
    simp only [State.handle] at h
    (repeat' split at h) <;> simp_all
  | CycleFilterMode =>
    simp only [State.handle, Option.some.injEq, ControlFlow.Continue.injEq] at h
    subst h; rfl

/-- refresh_query issues exactly one database call. -/
theorem State.refresh_query_trace (s : State) :
    s.refresh_query.queries.length = s.queries.length + 1 := by
  by_cases h : s.input.as_str = "" <;> simp [State.refresh_query, h]

/-- Database oracle returning no records; trivially honours every limit. -/
def dbEmpty : Database :=
  { listFn := fun _ _ _ _ => [], searchFn := fun _ _ _ _ _ _ _ => [] }

/-- Sample configuration for witnesses. -/
def settingsA : Settings :=
  { search_mode := ⟨0⟩, exit_mode := ExitMode.ReturnQuery, scroll_context_lines := 1,
    word_chars := "abcdefghijklmnopqrstuvwxyz", word_jump_mode := WordJumpMode.Emacs }

/-- Sample session: empty query, empty result list, selection 0. -/
def stBase : State :=
  { db := dbEmpty, filter_mode := FilterMode.Global, results_state := ⟨0, 10⟩,
    context := ⟨0⟩, input := ⟨"", 0⟩, history := [], history_count := 0,
    settings := settingsA, update_needed := none, queries := [] }

/-- Sample session with one record in the result list. -/
def stOne : State := { stBase with history := [⟨"echo hi"⟩] }

/-- C2: Selection(Down, SingleLine) terminates the session immediately with
the empty string when the selection index is 0, and otherwise decrements the
selection index by 1 and leaves the session open. -/
theorem c2_selection_down_single_line (s : State) :
    (s.results_state.selected = 0 →
      s.handle (.Selection .Down .SingleLine) = some (.Break "")) ∧
    (s.results_state.selected ≠ 0 →
      s.handle (.Selection .Down .SingleLine) =
        some (.Continue
          { s with results_state := s.results_state.select (s.results_state.selected - 1) })) := by
  constructor
  · intro h
    simp [State.handle, h]
  · intro h
    rcases Nat.exists_eq_succ_of_ne_zero h with ⟨k, hk⟩
    simp [State.handle, hk]

/-- Sample session with one record and selection index 1. -/
def stSel1 : State := { stOne with results_state := ⟨1, 10⟩ }

/-- C2 witness: on the sample session (selection 0) the event terminates
with the empty result, and with selection 1 it decrements to 0 and stays
open. -/
theorem c2_selection_down_single_line_witness :
    State.handle stBase (.Selection .Down .SingleLine) = some (.Break "") ∧
    State.handle stSel1 (.Selection .Down .SingleLine) =
      some (.Continue { stSel1 with results_state := ListState.select stSel1.results_state 0 }) :=
  ⟨(c2_selection_down_single_line stBase).1 rfl,
   (c2_selection_down_single_line stSel1).2 (by decide)⟩

/-- C5: CycleFilterMode advances the filter mode through the fixed cycle
Global, Host, Session, Directory, wrapping; four applications return to the
start and the intermediate modes are pairwise distinct. -/
theorem c5_cycle_filter_mode (s : State) :
    s.handle .CycleFilterMode =
      some (.Continue { s with filter_mode := nextFM s.filter_mode }) ∧
    nextFM FilterMode.Global = FilterMode.Host ∧
    nextFM FilterMode.Host = FilterMode.Session ∧
    nextFM FilterMode.Session = FilterMode.Directory ∧
    nextFM FilterMode.Directory = FilterMode.Global ∧
    nextFM (nextFM (nextFM (nextFM s.filter_mode))) = s.filter_mode ∧
    s.filter_mode ≠ nextFM s.filter_mode ∧
    s.filter_mode ≠ nextFM (nextFM s.filter_mode) ∧
    s.filter_mode ≠ nextFM (nextFM (nextFM s.filter_mode)) ∧
    nextFM s.filter_mode ≠ nextFM (nextFM s.filter_mode) ∧
    nextFM s.filter_mode ≠ nextFM (nextFM (nextFM s.filter_mode)) ∧
    nextFM (nextFM s.filter_mode) ≠ nextFM (nextFM (nextFM s.filter_mode)) := by
  refine ⟨rfl, rfl, rfl, rfl, rfl, ?_, ?_, ?_, ?_, ?_, ?_, ?_⟩ <;>
    cases s.filter_mode <;> decide

/-- C5 witness: one application of CycleFilterMode on the sample session
(filter mode Global) moves to the successor mode. -/
theorem c5_cycle_filter_mode_witness :
    State.handle stBase .CycleFilterMode =
      some (.Continue { stBase with filter_mode := nextFM stBase.filter_mode }) :=
  (c5_cycle_filter_mode stBase).1

/-- C7: Exit terminates the session with "" under ReturnOriginal and with the
current query text under ReturnQuery; in particular with query "ls -la" under
ReturnQuery the result is "ls -la". -/
theorem c7_exit (s : State) :
    (s.settings.exit_mode = ExitMode.ReturnOriginal →
      s.handle .Exit = some (.Break "")) ∧
    (s.settings.exit_mode = ExitMode.ReturnQuery →
      s.handle .Exit = some (.Break s.input.into_inner)) ∧
    State.handle { stBase with input := ⟨"ls -la", 6⟩ } .Exit = some (.Break "ls -la") := by
  refine ⟨?_, ?_, rfl⟩ <;> intro h <;> simp [State.handle, h]

/-- Sample session configured with the ReturnOriginal exit policy. -/
def stRO : State :=
  { stBase with settings := { settingsA with exit_mode := ExitMode.ReturnOriginal } }

/-- C7 witness: the ReturnQuery case applied to the sample session with
query "ls -la", and the ReturnOriginal case yielding the empty string. -/
theorem c7_exit_witness :
    State.handle { stBase with input := ⟨"ls -la", 6⟩ } .Exit = some (.Break "ls -la") ∧
    State.handle stRO .Exit = some (.Break "") :=
  ⟨(c7_exit { stBase with input := ⟨"ls -la", 6⟩ }).2.1 rfl, (c7_exit stRO).1 rfl⟩

/-- C9: UpdateNeeded(v) stores v as the pending update notice, leaves every
other session field (query cursor, filter mode, result list, selection,
total-record count, settings, context, database, trace) unchanged, and the
session stays open. -/
theorem c9_update_needed (s : State) (v : Version) :
    s.handle (.UpdateNeeded v) = some (.Continue { s with update_needed := some v }) ∧
    ({ s with update_needed := some v } : State).update_needed = some v ∧
    ({ s with update_needed := some v } : State).input = s.input ∧
    ({ s with update_needed := some v } : State).filter_mode = s.filter_mode ∧
    ({ s with update_needed := some v } : State).results_state = s.results_state ∧
    ({ s with update_needed := some v } : State).history = s.history ∧
    ({ s with update_needed := some v } : State).history_count = s.history_count ∧
    ({ s with update_needed := some v } : State).settings = s.settings ∧
    ({ s with update_needed := some v } : State).context = s.context ∧
    ({ s with update_needed := some v } : State).queries = s.queries :=
  ⟨rfl, rfl, rfl, rfl, rfl, rfl, rfl, rfl, rfl, rfl⟩

/-- C9 witness: storing a concrete version notice on the sample session. -/
theorem c9_update_needed_witness :
    State.handle stBase (.UpdateNeeded ⟨"18.0.1"⟩) =
      some (.Continue { stBase with update_needed := some ⟨"18.0.1"⟩ }) :=
  (c9_update_needed stBase ⟨"18.0.1"⟩).1

/-- C10: on an empty result list both Selection(Up, SingleLine) and
Selection(Up, Page) reach `len - 1` on the unsigned length 0 (or another
underflowing subtraction first), so the embedded handler returns the error
branch: non-emptiness is a necessary precondition for these events. -/
theorem c10_empty_list_up_undefined (s : State) (h : s.history = []) :
    s.handle (.Selection .Up .SingleLine) = none ∧
    s.handle (.Selection .Up .Page) = none := by
  constructor
  · rcases hca : checkedAdd s.results_state.selected 1 with _ | i <;>
      simp [State.handle, h, hca, checkedSub]
  · rcases hms : checkedSub s.results_state.max_entries s.settings.scroll_context_lines
        with _ | sl
    · simp [State.handle, h, hms]
    · rcases hca : checkedAdd s.results_state.selected sl with _ | i <;>
        (simp only [State.handle, h, hms, hca, List.length_nil]; try simp [checkedSub])

/-- C10 witness: the sample session has an empty result list, and both Up
events indeed error. -/
theorem c10_empty_list_up_undefined_witness :
    State.handle stBase (.Selection .Up .SingleLine) = none ∧
    State.handle stBase (.Selection .Up .Page) = none :=
  c10_empty_list_up_undefined stBase rfl

/-- C1 counterexample: the claim says SelectN out of range terminates the
session with the command of the record removed at index i by swap-removal;
on the sample session with one record and SelectN(5), i = 5 is out of range,
`swap_remove(5)` is out of bounds, and the handler hits the error branch
(`none`) instead of producing any terminal result. -/
theorem c1_select_n_counterexample : State.handle stOne (.SelectN 5) = none := rfl

/-- C1 amended: SelectN(n) computes i = sel + n (saturating); if i < len the
session terminates with the current query text, and otherwise the
swap-removal index i is out of bounds, so the handler aborts (the embedded
error branch) rather than terminating with a record's command. -/
theorem c1_select_n_amended (s : State) (n : Nat) :
    (satAdd s.results_state.selected n < s.history.length →
      s.handle (.SelectN n) = some (.Break s.input.into_inner)) ∧
    (s.history.length ≤ satAdd s.results_state.selected n →
      s.handle (.SelectN n) = none) := by
  constructor <;> intro h
  · simp [State.handle, h]
  · have h' : ¬ satAdd s.results_state.selected n < s.history.length := Nat.not_lt.mpr h
    simp [State.handle, h', swapRemove]

/-- C1 witness: both branches of the amended claim at the one-record sample
session: SelectN(0) is in range and returns the (empty) query text,
SelectN(9) is out of range and aborts. -/
theorem c1_select_n_amended_witness :
    State.handle stOne (.SelectN 0) = some (.Break "") ∧
    State.handle stOne (.SelectN 9) = none :=
  ⟨(c1_select_n_amended stOne 0).1 (by decide),
   (c1_select_n_amended stOne 9).2 (by decide)⟩

/-- Inversion for checked subtraction. -/
theorem checkedSub_eq_some {a b m : Nat} (h : checkedSub a b = some m) :
    b ≤ a ∧ m = a - b := by
  simp only [checkedSub] at h
  split_ifs at h with hba
  · injection h with h
    exact ⟨hba, h.symm⟩

/-- C4: from a non-empty result list with the selection in range, any
Selection event that leaves the session open keeps the result list unchanged
and the selection within [0, len-1]. -/
theorem c4_selection_in_range (s : State) (l : Line) (f : For) (s' : State)
    (hne : s.history ≠ [])
    (hsel : s.results_state.selected < s.history.length)
    (h : s.handle (.Selection l f) = some (.Continue s')) :
    s'.history = s.history ∧ s'.results_state.selected < s'.history.length := by
  have hlen : 0 < s.history.length := List.length_pos.mpr hne
  cases l <;> cases f <;> simp only [State.handle] at h
  case Up.SingleLine =>
    rcases hca : checkedAdd s.results_state.selected 1 with _ | i <;>
      simp only [hca] at h
    · cases h
    rcases hcs : checkedSub s.history.length 1 with _ | m <;> simp only [hcs] at h
    · cases h
    simp only [Option.some.injEq, ControlFlow.Continue.injEq] at h
    subst h
    obtain ⟨-, hm⟩ := checkedSub_eq_some hcs
    have hmin : min i m ≤ m := Nat.min_le_right i m
    exact ⟨rfl, by simp only [ListState.select]; omega⟩
  case Up.Page =>
    rcases hms : checkedSub s.results_state.max_entries s.settings.scroll_context_lines
        with _ | sl <;> simp only [hms] at h
    · cases h
    rcases hca : checkedAdd s.results_state.selected sl with _ | i <;>
      simp only [hca] at h
    · cases h
    rcases hcs : checkedSub s.history.length 1 with _ | m <;> simp only [hcs] at h
    · cases h
    simp only [Option.some.injEq, ControlFlow.Continue.injEq] at h
    subst h
    obtain ⟨-, hm⟩ := checkedSub_eq_some hcs
    have hmin : min i m ≤ m := Nat.min_le_right i m
    exact ⟨rfl, by simp only [ListState.select]; omega⟩
  case Down.SingleLine =>
    rcases hsl : s.results_state.selected with _ | k <;> simp only [hsl] at h
    · cases h
    simp only [Option.some.injEq, ControlFlow.Continue.injEq] at h
    subst h
    refine ⟨rfl, ?_⟩
    simp only [ListState.select]
    omega
  case Down.Page =>
    rcases hms : checkedSub s.results_state.max_entries s.settings.scroll_context_lines
        with _ | sl <;> simp only [hms] at h
    · cases h
    simp only [Option.some.injEq, ControlFlow.Continue.injEq] at h
    subst h
    refine ⟨rfl, ?_⟩
    simp only [ListState.select]
    omega

/-- Result of Selection(Up, SingleLine) on the one-record sample session. -/
def stOneSel : State := { stOne with results_state := ListState.select stOne.results_state 0 }

/-- C4 witness: Selection(Up, SingleLine) on the one-record sample session
clamps the selection to 0, which stays in range. -/
theorem c4_selection_in_range_witness :
    stOneSel.history = stOne.history ∧
    stOneSel.results_state.selected < stOneSel.history.length :=
  c4_selection_in_range stOne .Up .SingleLine stOneSel (by decide) (by decide) rfl

/-- C3: a batch commit refreshes the result list iff the live query text or
filter mode differs from the snapshot taken at batch creation; the returned
boolean reports exactly whether a refresh occurred; and at most one refresh
happens per batch (the trace grows by exactly one call on a refreshing
commit, by zero otherwise, and event handling inside the batch never issues
a call). -/
theorem c3_batch_commit (g : Guard) :
    (g.finish.2 = true ↔
      (g.initial_input ≠ g.inner.input.as_str ∨
        g.initial_filter_mode ≠ g.inner.filter_mode)) ∧
    (g.finish.2 = true →
      g.finish.1 = g.inner.refresh_query ∧
      g.finish.1.queries.length = g.inner.queries.length + 1) ∧
    (g.finish.2 = false →
      g.finish.1 = g.inner ∧
      g.finish.1.queries.length = g.inner.queries.length) ∧
    (∀ e g', g.handle e = some (.Continue g') →
      g'.inner.queries = g.inner.queries) := by
  by_cases hp : g.initial_input ≠ g.inner.input.as_str ∨
      g.initial_filter_mode ≠ g.inner.filter_mode
  all_goals refine ⟨?_, ?_, ?_, ?_⟩
  · simp [Guard.finish, hp]
  · intro _
    exact ⟨by simp [Guard.finish, hp], by simp [Guard.finish, hp, State.refresh_query_trace]⟩
  · intro hfalse
    exfalso
    simp [Guard.finish, hp] at hfalse
  · intro e g' h
    simp only [Guard.handle] at h
    rcases hih : g.inner.handle e with _ | f <;> simp only [hih] at h
    · cases h
    rcases f with r | inner
    · simp at h
    · simp only [Option.some.injEq, ControlFlow.Continue.injEq] at h
      subst h
      exact State.handle_queries hih
  · simp [Guard.finish, hp]
  · intro htrue
    exfalso
    simp [Guard.finish, hp] at htrue
  · intro _
    exact ⟨by simp [Guard.finish, hp], by simp [Guard.finish, hp]⟩
  · intro e g' h
    simp only [Guard.handle] at h
    rcases hih : g.inner.handle e with _ | f <;> simp only [hih] at h
    · cases h
    rcases f with r | inner
    · simp at h
    · simp only [Option.some.injEq, ControlFlow.Continue.injEq] at h
      subst h
      exact State.handle_queries hih

/-- Guard over the sample session whose snapshot disagrees with the live
query text, so commit must refresh. -/
def gChanged : Guard :=
  { initial_input := "old", initial_filter_mode := FilterMode.Global, inner := stBase }

/-- Guard produced by start_batch on the sample session: nothing changed. -/
def gSame : Guard := stBase.start_batch

/-- Guard state after gSame handles a Clear event. -/
def gSameCleared : Guard := { gSame with inner := { stBase with input := stBase.input.clear } }

/-- C3 witness: the changed guard commits with a one-longer trace, the
unchanged guard commits with no refresh, and handling an event inside the
batch leaves the trace untouched. -/
theorem c3_batch_commit_witness :
    gChanged.finish.1.queries.length = gChanged.inner.queries.length + 1 ∧
    gSame.finish.1 = gSame.inner ∧
    gSameCleared.inner.queries = gSame.inner.queries :=
  ⟨((c3_batch_commit gChanged).2.1 (by decide)).2,
   ((c3_batch_commit gSame).2.2.1 (by decide)).1,
   (c3_batch_commit gSame).2.2.2 .Clear gSameCleared rfl⟩

/-- C6: refresh issues a recency-ordered list query with limit 200 under the
active filter mode when the query text is empty, and otherwise a free-text
search with the configured search mode, active filter mode, query text and
limit 200; the selection is reset to 0; and when the storage collaborator
honours its limits the refreshed result list holds at most 200 records. -/
theorem c6_refresh_query (s : State)
    (hlist : ∀ fm ctx k r, (s.db.listFn fm ctx (some k) r).length ≤ k)
    (hsearch : ∀ sm fm ctx t k b a, (s.db.searchFn sm fm ctx t (some k) b a).length ≤ k) :
    (s.input.as_str = "" →
      s.refresh_query.history = s.db.listFn s.filter_mode s.context (some 200) true ∧
      s.refresh_query.queries =
        s.queries ++ [DbQuery.list s.filter_mode s.context (some 200) true]) ∧
    (s.input.as_str ≠ "" →
      s.refresh_query.history =
        s.db.searchFn s.settings.search_mode s.filter_mode s.context s.input.as_str
          (some 200) none none ∧
      s.refresh_query.queries = s.queries ++
        [DbQuery.search s.settings.search_mode s.filter_mode s.context s.input.as_str
          (some 200) none none]) ∧
    s.refresh_query.results_state.selected = 0 ∧
    s.refresh_query.history.length ≤ 200 := by
  refine ⟨fun h => ?_, fun h => ?_, ?_, ?_⟩
  · simp [State.refresh_query, h]
  · simp [State.refresh_query, h]
  · by_cases h : s.input.as_str = "" <;> simp [State.refresh_query, h, ListState.select]
  · by_cases h : s.input.as_str = "" <;> simp only [State.refresh_query, h] <;> simp
    · exact hlist s.filter_mode s.context 200 true
    · exact hsearch s.settings.search_mode s.filter_mode s.context s.input.as_str 200 none none

/-- C6 witness: on the sample session with the empty-result database oracle
the refreshed list is within the 200-record cap and the selection is 0. -/
theorem c6_refresh_query_witness :
    stBase.refresh_query.results_state.selected = 0 ∧
    stBase.refresh_query.history.length ≤ 200 :=
  ⟨(c6_refresh_query stBase (fun _ _ _ _ => by simp [stBase, dbEmpty])
      (fun _ _ _ _ _ _ _ => by simp [stBase, dbEmpty])).2.2.1,
   (c6_refresh_query stBase (fun _ _ _ _ => by simp [stBase, dbEmpty])
      (fun _ _ _ _ _ _ _ => by simp [stBase, dbEmpty])).2.2.2⟩

/-- C8: conversion of a raw terminal event yields at most one semantic Event
(it is a function into Option), and the unsupported raw inputs - resize,
focus gained/lost, paste, and key or mouse actions absent from the fixed
table - yield no Event at all; conversion reads no session state, so a
skipped input changes nothing. -/
theorem c8_event_conversion :
    (∀ t e₁ e₂, Event.tryFromTerm t = some e₁ → Event.tryFromTerm t = some e₂ → e₁ = e₂) ∧
    (∀ w h, Event.tryFromTerm (.Resize w h) = none) ∧
    Event.tryFromTerm .FocusGained = none ∧
    Event.tryFromTerm .FocusLost = none ∧
    (∀ p, Event.tryFromTerm (.Paste p) = none) ∧
    (∀ m : MouseEvent, m.kind ≠ MouseEventKind.ScrollDown →
      m.kind ≠ MouseEventKind.ScrollUp → Event.tryFromTerm (.Mouse m) = none) ∧
    (∀ mods n, Event.tryFromTerm (.Key ⟨.F n, mods⟩) = none) ∧
    (∀ mods, Event.tryFromTerm (.Key ⟨.Tab, mods⟩) = none) ∧
    (∀ mods, Event.tryFromTerm (.Key ⟨.BackTab, mods⟩) = none) ∧
    (∀ mods, Event.tryFromTerm (.Key ⟨.Insert, mods⟩) = none) ∧
    (∀ mods, Event.tryFromTerm (.Key ⟨.Null, mods⟩) = none) ∧
    (∀ mods, Event.tryFromTerm (.Key ⟨.CapsLock, mods⟩) = none) := by
  refine ⟨?_, fun w h => rfl, rfl, rfl, fun p => rfl, ?_, fun mods n => rfl,
    fun mods => rfl, fun mods => rfl, fun mods => rfl, fun mods => rfl, fun mods => rfl⟩
  · intro t e₁ e₂ h₁ h₂
    rw [h₁] at h₂
    injection h₂
  · intro m hdown hup
    rcases m with ⟨k, col, row⟩
    cases k <;> simp_all [Event.tryFromTerm, Event.tryFromMouse]

/-- C8 witness: a mouse move and an unmodified Tab key are both skipped, and
conversion of Esc is single-valued. -/
theorem c8_event_conversion_witness :
    Event.tryFromTerm (.Mouse ⟨MouseEventKind.Moved, 0, 0⟩) = none ∧
    Event.tryFromTerm (.Key ⟨.Tab, ⟨false, false, false⟩⟩) = none ∧
    Event.Exit = Event.Exit :=
  ⟨c8_event_conversion.2.2.2.2.2.1 ⟨MouseEventKind.Moved, 0, 0⟩ (by decide) (by decide),
   c8_event_conversion.2.2.2.2.2.2.2.1 ⟨false, false, false⟩,
   c8_event_conversion.1 (.Key ⟨.Esc, ⟨false, false, false⟩⟩) .Exit .Exit rfl rfl⟩

end Atuin
